import Mathlib

/-!
Shallow embedding of the buffer-object lifecycle manager (src/omap_dumb.c)
and the DRI2 swap scheduler / flip state machine (src/omap_dri2.c) of the
armsoc-rockchip display driver, together with theorems settling the spec
claims about them.

External collaborators (kernel ioctls, calloc, the dix drawable lookup,
mode switching, page flipping) are modelled by explicit result parameters;
side effects that cross the interface boundary (ioctls issued, buffers
destroyed, pixmaps released) are recorded in explicit event lists so that
theorems can speak about which hardware/host actions an operation performs.
-/

namespace Armsoc

/-! ## Buffer objects (src/omap_dumb.c) -/

/-- One observable boundary-crossing action of the BO lifecycle manager. -/
inductive BoEvent where
  /-- Event: `exynos_bo_create` succeeded, backing memory allocated. -/
  | exynosCreate
  /-- Event: `exynos_bo_destroy`, backing memory destroyed. -/
  | exynosDestroy
  /-- Event: `drmModeAddFB` (legacy, depth given). -/
  | addFB
  /-- Event: `drmModeAddFB2` (four-cc pixel format). -/
  | addFB2
  /-- Event: `drmModeRmFB`, framebuffer unregistered. -/
  | rmFB
  /-- Event: `free` of the `omap_bo` struct. -/
  | freeMem
  /-- Event: `DRM_IOCTL_EXYNOS_GEM_CPU_ACQUIRE`, exclusive iff the flag is true. -/
  | cpuAcquire (exclusive : Bool)
  /-- Event: `DRM_IOCTL_EXYNOS_GEM_CPU_RELEASE`. -/
  | cpuRelease
deriving DecidableEq

/-- Embeds `struct omap_bo` (src/omap_dumb.c:43-57), without the device/exynos
back-pointers.  `refcnt`, `acquire_cnt` are C `int`, hence `Int`. -/
structure OmapBo where
  fb_id : Nat
  width : Nat
  height : Nat
  pitch : Nat
  depth : Nat
  bpp : Nat
  pixel_format : Nat
  refcnt : Int
  acquired_exclusive : Bool
  acquire_cnt : Int
  dirty : Bool
deriving DecidableEq

/-- Pitch computation of `omap_bo_new` (src/omap_dumb.c:121), in `uint32_t`
arithmetic: `((((width * bpp + 7) / 8) + 63) / 64) * 64`, 64-byte aligned. -/
def pitchOf (width bpp : Nat) : Nat :=
  ((width * bpp % 2 ^ 32 + 7) % 2 ^ 32 / 8 + 63) % 2 ^ 32 / 64 * 64 % 2 ^ 32

/-- Embeds `omap_bo_new` (src/omap_dumb.c:104-190).  External results are passed in:
`callocOk` for the `calloc` of the struct, `createOk` for `exynos_bo_create`,
`addFbRet` for the `drmModeAddFB`/`drmModeAddFB2` return value and `fbIdOut`
for the framebuffer id it writes on success.  Returns the constructed BO (or
`none` on failure) plus the events performed. -/
def omap_bo_new (callocOk createOk : Bool) (addFbRet : Int) (fbIdOut : Nat)
    (width height depth bpp pixel_format : Nat) : Option OmapBo × List BoEvent :=
  if callocOk = false then (none, [])
  else if createOk = false then (none, [])
  else
    let pitch := pitchOf width bpp
    let mkbo : OmapBo :=
      { fb_id := fbIdOut, width := width, height := height, pitch := pitch
        depth := depth, bpp := bpp, pixel_format := pixel_format
        refcnt := 1, acquired_exclusive := false, acquire_cnt := 0, dirty := true }
    if depth ≠ 0 then
      if addFbRet < 0 then
        (none, [BoEvent.exynosCreate, BoEvent.exynosDestroy, BoEvent.freeMem])
      else
        (some mkbo, [BoEvent.exynosCreate, BoEvent.addFB])
    else
      if addFbRet < 0 then
        (none, [BoEvent.exynosCreate, BoEvent.exynosDestroy, BoEvent.freeMem])
      else
        (some mkbo, [BoEvent.exynosCreate, BoEvent.addFB2])

/-- Embeds `omap_bo_del` (src/omap_dumb.c:204-226): tolerates a null BO; otherwise
removes the framebuffer, destroys the backing memory and frees the struct. -/
def omap_bo_del : Option OmapBo → List BoEvent
  | none => []
  | some _ => [BoEvent.rmFB, BoEvent.exynosDestroy, BoEvent.freeMem]

/-- Embeds `omap_bo_unreference` (src/omap_dumb.c:228-236).  `none` models the
`assert(bo->refcnt > 0)` firing; otherwise returns the surviving BO (or
`none` once destroyed) together with the destruction events. -/
def omap_bo_unreference : Option OmapBo → Option (Option OmapBo × List BoEvent)
  | none => some (none, [])
  | some bo =>
    if bo.refcnt ≤ 0 then none
    else if bo.refcnt - 1 = 0 then some (none, omap_bo_del (some bo))
    else some (some { bo with refcnt := bo.refcnt - 1 }, [])

/-- Embeds `omap_bo_reference` (src/omap_dumb.c:238-242); `none` models the
assertion on a non-positive refcount firing. -/
def omap_bo_reference (bo : OmapBo) : Option OmapBo :=
  if bo.refcnt ≤ 0 then none
  else some { bo with refcnt := bo.refcnt + 1 }

/-- Embeds `omap_bo_cpu_prep` (src/omap_dumb.c:329-360).  `opWrite` is
`op & OMAP_GEM_WRITE`; `ioctlRet` is the result the acquire ioctl would
return if issued.  Result: (return value, updated BO, ioctls issued). -/
def omap_bo_cpu_prep (ioctlRet : Int) (bo : OmapBo) (opWrite : Bool) :
    Int × OmapBo × List BoEvent :=
  if bo.acquire_cnt ≠ 0 then
    if opWrite = true ∧ bo.acquired_exclusive = false then (1, bo, [])
    else (0, { bo with acquire_cnt := bo.acquire_cnt + 1 }, [])
  else
    if ioctlRet ≠ 0 then (ioctlRet, bo, [BoEvent.cpuAcquire opWrite])
    else
      (0, { bo with acquired_exclusive := opWrite
                    acquire_cnt := bo.acquire_cnt + 1
                    dirty := if opWrite then true else bo.dirty },
       [BoEvent.cpuAcquire opWrite])

/-- Embeds `omap_bo_cpu_fini` (src/omap_dumb.c:362-380).  `none` models the
`assert(bo->acquire_cnt > 0)` firing.  Only the release that takes the
depth to zero issues the release ioctl (whose result is `ioctlRet`). -/
def omap_bo_cpu_fini (ioctlRet : Int) (bo : OmapBo) (opWrite : Bool) :
    Option (Int × OmapBo × List BoEvent) :=
  if bo.acquire_cnt ≤ 0 then none
  else
    let bo1 : OmapBo := { bo with acquire_cnt := bo.acquire_cnt - 1 }
    if bo1.acquire_cnt ≠ 0 then some (0, bo1, [])
    else some (ioctlRet, bo1, [BoEvent.cpuRelease])

/-- Embeds `omap_bo_get_dirty` (src/omap_dumb.c:382-385). -/
def omap_bo_get_dirty (bo : OmapBo) : Bool := bo.dirty

/-- Embeds `omap_bo_clear_dirty` (src/omap_dumb.c:387-390). -/
def omap_bo_clear_dirty (bo : OmapBo) : OmapBo := { bo with dirty := false }

/-- Runs a sequence of `omap_bo_cpu_prep` calls (write flags in `ops`),
requiring every call to return 0; collects the ioctls issued. -/
def cpu_prep_run (r : Int) : OmapBo → List Bool → Option (OmapBo × List BoEvent)
  | bo, [] => some (bo, [])
  | bo, op :: ops =>
    let res := omap_bo_cpu_prep r bo op
    if res.1 = 0 then
      match cpu_prep_run r res.2.1 ops with
      | some (bo2, evs2) => some (bo2, res.2.2 ++ evs2)
      | none => none
    else none

/-- Runs `k` `omap_bo_cpu_fini` calls, requiring every call to pass its
assertion and return 0; collects the ioctls issued. -/
def cpu_fini_run (r : Int) (opWrite : Bool) : OmapBo → Nat → Option (OmapBo × List BoEvent)
  | bo, 0 => some (bo, [])
  | bo, k + 1 =>
    match omap_bo_cpu_fini r bo opWrite with
    | some (ret, bo1, evs) =>
      if ret = 0 then
        match cpu_fini_run r opWrite bo1 k with
        | some (bo2, evs2) => some (bo2, evs ++ evs2)
        | none => none
      else none
    | none => none

/-! ### Lemmas and claim theorems for the BO lifecycle -/

/-- A fallback BO value, only used to extract from `Option`s that are
provably `some` on concrete inputs. -/
def defaultBo : OmapBo :=
  { fb_id := 0, width := 0, height := 0, pitch := 0, depth := 0, bpp := 0
    pixel_format := 0, refcnt := 0, acquired_exclusive := false
    acquire_cnt := 0, dirty := false }

/-- C6: if framebuffer registration fails during BO creation, the freshly
allocated backing memory is destroyed and an error (`none`) is returned, so
no partially-constructed BO is returned or leaked; on success the returned
BO has refcount 1, dirty flag true, and CPU-acquire depth 0. -/
theorem bo_new_atomic (addFbRet : Int) (fbIdOut width height depth bpp pf : Nat) :
    (addFbRet < 0 →
      omap_bo_new true true addFbRet fbIdOut width height depth bpp pf =
        (none, [BoEvent.exynosCreate, BoEvent.exynosDestroy, BoEvent.freeMem])) ∧
    (0 ≤ addFbRet →
      ∃ bo, (omap_bo_new true true addFbRet fbIdOut width height depth bpp pf).1 = some bo ∧
        bo.refcnt = 1 ∧ bo.dirty = true ∧ bo.acquire_cnt = 0) := by
  constructor
  · intro h
    simp only [omap_bo_new]
    split_ifs <;> first | rfl | omega | simp_all
  · intro h
    simp only [omap_bo_new]
    split_ifs <;> first | exact ⟨_, rfl, rfl, rfl, rfl⟩ | omega | simp_all

/-- Witness for C6: concrete failing registration destroys the allocation. -/
theorem bo_new_atomic_witness :
    omap_bo_new true true (-1) 0 64 64 24 32 0 =
      (none, [BoEvent.exynosCreate, BoEvent.exynosDestroy, BoEvent.freeMem]) :=
  (bo_new_atomic (-1) 0 64 64 24 32 0).1 (by decide)

/-- C7: a write-mode CPU acquire on a BO that is currently held shared
(depth > 0, not exclusive) fails with the contention error 1 and leaves the
BO (depth, exclusivity, dirty flag) unchanged, issuing no ioctl. -/
theorem cpu_prep_write_contention (r : Int) (bo : OmapBo)
    (hdepth : 0 < bo.acquire_cnt) (hexcl : bo.acquired_exclusive = false) :
    omap_bo_cpu_prep r bo true = (1, bo, []) := by
  unfold omap_bo_cpu_prep
  rw [if_pos (by omega : bo.acquire_cnt ≠ 0), if_pos ⟨rfl, hexcl⟩]

/-- Witness for C7 at a concrete shared-held BO. -/
theorem cpu_prep_write_contention_witness :
    omap_bo_cpu_prep 0 { defaultBo with acquire_cnt := 1 } true =
      (1, { defaultBo with acquire_cnt := 1 }, []) :=
  cpu_prep_write_contention 0 { defaultBo with acquire_cnt := 1 } (by decide) (by decide)

/-- An acquire performed while the depth is already positive never issues an
ioctl and only increments the depth counter. -/
theorem cpu_prep_run_nested (r : Int) (ops : List Bool) :
    ∀ (bo bo' : OmapBo) (evs : List BoEvent), 0 < bo.acquire_cnt →
      cpu_prep_run r bo ops = some (bo', evs) →
      evs = [] ∧ bo'.acquire_cnt = bo.acquire_cnt + ops.length := by
  induction ops with
  | nil =>
    intro bo bo' evs _ hrun
    simp only [cpu_prep_run, Option.some.injEq, Prod.mk.injEq] at hrun
    obtain ⟨h1, h2⟩ := hrun
    simp [← h1, ← h2]
  | cons op ops ih =>
    intro bo bo' evs hpos hrun
    unfold cpu_prep_run omap_bo_cpu_prep at hrun
    rw [if_pos (by omega : bo.acquire_cnt ≠ 0)] at hrun
    by_cases hc : op = true ∧ bo.acquired_exclusive = false
    · rw [if_pos hc] at hrun
      simp at hrun
    · rw [if_neg hc] at hrun
      simp only [reduceIte] at hrun
      cases hrec : cpu_prep_run r { bo with acquire_cnt := bo.acquire_cnt + 1 } ops with
      | none => rw [hrec] at hrun; simp at hrun
      | some p =>
        rw [hrec] at hrun
        obtain ⟨bo2, evs2⟩ := p
        simp only [Option.some.injEq, Prod.mk.injEq, List.nil_append] at hrun
        obtain ⟨hb, he⟩ := hrun
        obtain ⟨he2, hc2⟩ := ih _ _ _ (by simp; omega) hrec
        subst hb he
        simp only [he2, true_and, hc2, List.length_cons]
        push_cast
        omega

/-- Draining a positive acquire depth `k + 1` with `k + 1` releases issues
exactly one hardware release ioctl, at the final (depth-to-zero) release. -/
theorem cpu_fini_run_drain (w : Bool) (k : Nat) :
    ∀ bo : OmapBo, bo.acquire_cnt = (k : Int) + 1 →
      ∃ bo2, cpu_fini_run 0 w bo (k + 1) = some (bo2, [BoEvent.cpuRelease]) ∧
        bo2.acquire_cnt = 0 := by
  induction k with
  | zero =>
    intro bo hcnt
    refine ⟨{ bo with acquire_cnt := bo.acquire_cnt - 1 }, ?_, by simp [hcnt]⟩
    unfold cpu_fini_run omap_bo_cpu_fini
    rw [if_neg (by omega : ¬bo.acquire_cnt ≤ 0), if_neg (by simp [hcnt])]
    simp [cpu_fini_run]
  | succ n ih =>
    intro bo hcnt
    obtain ⟨bo2, hrun, hz⟩ :=
      ih { bo with acquire_cnt := bo.acquire_cnt - 1 }
        (show bo.acquire_cnt - 1 = (n : Int) + 1 by push_cast at hcnt ⊢; omega)
    refine ⟨bo2, ?_, hz⟩
    unfold cpu_fini_run omap_bo_cpu_fini
    rw [if_neg (by omega : ¬bo.acquire_cnt ≤ 0),
        if_pos (show bo.acquire_cnt - 1 ≠ 0 by push_cast at hcnt; omega)]
    simp [hrun]

/-- C8: a legal nested sequence of `1 + ops.length` successful CPU acquires
from depth 0 (with the hardware acquire succeeding) issues exactly one
hardware acquire ioctl — for the first call — and the matching sequence of
releases issues exactly one hardware release ioctl, at the final release;
all intermediate calls only adjust the depth counter. -/
theorem cpu_nested_single_hw_ioctl (bo bo' : OmapBo) (op0 w : Bool)
    (ops : List Bool) (evs : List BoEvent)
    (h0 : bo.acquire_cnt = 0)
    (hrun : cpu_prep_run 0 bo (op0 :: ops) = some (bo', evs)) :
    evs = [BoEvent.cpuAcquire op0] ∧
    bo'.acquire_cnt = 1 + ops.length ∧
    ∃ bo2, cpu_fini_run 0 w bo' (1 + ops.length) = some (bo2, [BoEvent.cpuRelease]) ∧
      bo2.acquire_cnt = 0 := by
  unfold cpu_prep_run omap_bo_cpu_prep at hrun
  rw [if_neg (by omega : ¬bo.acquire_cnt ≠ 0),
      if_neg (by omega : ¬(0 : Int) ≠ 0)] at hrun
  simp only [reduceIte] at hrun
  cases hrec : cpu_prep_run 0
      { bo with acquired_exclusive := op0, acquire_cnt := bo.acquire_cnt + 1,
                dirty := if op0 then true else bo.dirty } ops with
  | none => rw [hrec] at hrun; simp at hrun
  | some p =>
    rw [hrec] at hrun
    obtain ⟨bo2, evs2⟩ := p
    simp only [Option.some.injEq, Prod.mk.injEq] at hrun
    obtain ⟨hb, he⟩ := hrun
    obtain ⟨he2, hc2⟩ := cpu_prep_run_nested 0 ops _ _ _ (by simp; omega) hrec
    have hcnt : bo'.acquire_cnt = 1 + (ops.length : Int) := by
      rw [← hb, hc2]
      show bo.acquire_cnt + 1 + (ops.length : Int) = 1 + (ops.length : Int)
      omega
    refine ⟨by simp [← he, he2], by rw [hcnt], ?_⟩
    have := cpu_fini_run_drain w ops.length bo' (by omega)
    simpa [Nat.add_comm] using this

/-- Witness BO for the C8 scenario: fresh, depth 0. -/
def c8bo : OmapBo := { defaultBo with refcnt := 1, dirty := true }

/-- Witness for C8: a concrete 2-deep nesting (write then read) issues one
acquire and one release ioctl. -/
theorem cpu_nested_single_hw_ioctl_witness :
    [BoEvent.cpuAcquire true] = [BoEvent.cpuAcquire true] ∧
    ({ c8bo with acquired_exclusive := true, acquire_cnt := 2,
                 dirty := true } : OmapBo).acquire_cnt = 1 + [false].length ∧
    ∃ bo2, cpu_fini_run 0 false
        { c8bo with acquired_exclusive := true, acquire_cnt := 2, dirty := true }
        (1 + [false].length) = some (bo2, [BoEvent.cpuRelease]) ∧
      bo2.acquire_cnt = 0 :=
  cpu_nested_single_hw_ioctl c8bo
    { c8bo with acquired_exclusive := true, acquire_cnt := 2, dirty := true }
    true false [false] [BoEvent.cpuAcquire true] (by decide) (by decide)

/-- The BO obtained by a successful creation (depth 24). -/
def c9boNew : OmapBo :=
  ((omap_bo_new true true 0 7 64 64 24 32 0).1).getD defaultBo

/-- State of `c9boNew` after a successful outermost write-mode acquire. -/
def c9boHeld : OmapBo := (omap_bo_cpu_prep 0 c9boNew true).2.1

/-- State of `c9boHeld` after the caller clears the dirty flag. -/
def c9boCleared : OmapBo := omap_bo_clear_dirty c9boHeld

/-- C9 counterexample: after create → write acquire → `omap_bo_clear_dirty`,
a nested write-mode acquire completes successfully (returns 0) yet the dirty
flag is false afterwards — refuting the claim that the dirty flag is true
immediately after *any* successful write-mode acquire, including nested
ones. -/
theorem dirty_nested_write_counterexample :
    (omap_bo_cpu_prep 0 c9boCleared true).1 = 0 ∧
    ((omap_bo_cpu_prep 0 c9boCleared true).2.1).dirty = false := by decide

/-- C9 amended: the dirty flag is true immediately after a write-mode
acquire that performs the hardware acquire (depth 0 → 1) and immediately
after successful allocation; a nested write acquire (depth already positive)
succeeds but leaves the dirty flag unchanged. -/
theorem dirty_after_write_acquire (bo bo2 : OmapBo) (r : Int)
    (h0 : bo.acquire_cnt = 0) (hnest : bo2.acquire_cnt ≠ 0) :
    (((omap_bo_cpu_prep 0 bo true).2.1).dirty = true ∧
      (omap_bo_cpu_prep 0 bo true).1 = 0) ∧
    (∀ callocOk createOk addFbRet fbIdOut w h d p pf b,
        (omap_bo_new callocOk createOk addFbRet fbIdOut w h d p pf).1 = some b →
        b.dirty = true) ∧
    ((omap_bo_cpu_prep r bo2 true).1 = 0 →
        ((omap_bo_cpu_prep r bo2 true).2.1).dirty = bo2.dirty) := by
  refine ⟨?_, fun callocOk createOk addFbRet fbIdOut w h d p pf b hb => ?_, fun hret => ?_⟩
  · unfold omap_bo_cpu_prep
    rw [if_neg (by omega : ¬bo.acquire_cnt ≠ 0),
        if_neg (by omega : ¬(0 : Int) ≠ 0)]
    exact ⟨rfl, rfl⟩
  · simp only [omap_bo_new] at hb
    split_ifs at hb <;> (cases Option.some.inj hb; rfl)
  · unfold omap_bo_cpu_prep at hret ⊢
    rw [if_pos hnest] at hret ⊢
    by_cases hc : (true : Bool) = true ∧ bo2.acquired_exclusive = false
    · rw [if_pos hc] at hret; simp at hret
    · rw [if_neg hc]

/-- Witness for C9's amended theorem at concrete BOs. -/
theorem dirty_after_write_acquire_witness :
    ((omap_bo_cpu_prep 0 c8bo true).2.1).dirty = true ∧
    (omap_bo_cpu_prep 0 c8bo true).1 = 0 :=
  (dirty_after_write_acquire c8bo c9boCleared 0 (by decide) (by decide)).1

/-- A BO whose refcount has been driven to 0 (not constructible through the
public operations without an assertion firing). -/
def c10bo : OmapBo := { defaultBo with refcnt := 0 }

/-- C10: unreferencing a null BO is a silent no-op (no decrement, no
framebuffer unregistration, no free), and the internal destroy routine also
tolerates null; by contrast, unreferencing a present BO asserts that its
refcount is positive (modelled by `none`), and succeeds whenever it is. -/
theorem unreference_null_noop :
    omap_bo_unreference none = some (none, []) ∧
    omap_bo_del none = [] ∧
    (∀ bo : OmapBo, bo.refcnt ≤ 0 → omap_bo_unreference (some bo) = none) ∧
    (∀ bo : OmapBo, 0 < bo.refcnt → (omap_bo_unreference (some bo)).isSome = true) := by
  refine ⟨rfl, rfl, fun bo h => ?_, fun bo h => ?_⟩
  · simp only [omap_bo_unreference]
    rw [if_pos h]
  · simp only [omap_bo_unreference]
    rw [if_neg (by omega : ¬bo.refcnt ≤ 0)]
    split_ifs <;> rfl

/-- Witness for C10 at a concrete zero-refcount BO. -/
theorem unreference_null_noop_witness :
    omap_bo_unreference (some c10bo) = none :=
  unreference_null_noop.2.2.1 c10bo (by decide)

/-! ## DRI2 swap scheduler (src/omap_dri2.c)

BOs and pixmaps are referred to by numeric identities; the per-command
pixmap driver-privates (`src_priv->bo`, `dst_priv->bo`), the pixmap
reference counts and the process-wide registry live in `DriverState`.
Boundary-crossing actions are recorded as `Dri2Event`s. -/

/-- Constant `DRI2_BLIT_COMPLETE` (value from the X server's dri2.h). -/
def DRI2_BLIT_COMPLETE : Nat := 2

/-- Constant `DRI2_FLIP_COMPLETE` (value from the X server's dri2.h). -/
def DRI2_FLIP_COMPLETE : Nat := 3

/-- Constant `OMAP_SWAP_FAKE_FLIP` (src/omap_dri2.c:300). -/
def OMAP_SWAP_FAKE_FLIP : Nat := 1

/-- Constant `OMAP_SWAP_FAIL` (src/omap_dri2.c:301). -/
def OMAP_SWAP_FAIL : Nat := 2

/-- One scanout-registry slot (`pOMAP->scanouts[i]`): the BO it holds, its
validity flag, its position metadata and — modelled from the spec — the
drawable it is currently bound to (used by `drmmode_scanout_from_drawable`). -/
structure ScanoutSlot where
  bo : Nat
  valid : Bool
  x : Int
  y : Int
  boundDraw : Option Nat
deriving DecidableEq

/-- The part of an X drawable this unit reads: stable id, whether its type
is `DRAWABLE_WINDOW`, geometry. -/
structure Drawable where
  id : Nat
  isWindow : Bool
  width : Nat
  height : Nat
  x : Int
  y : Int
deriving DecidableEq

/-- Embeds `struct _OMAPDRISwapCmd` (src/omap_dri2.c:303-320), restricted to the
fields the embedded operations read. -/
structure SwapCmd where
  type : Nat
  draw_id : Nat
  swapCount : Int
  flags : Nat
  x : Int
  y : Int
deriving DecidableEq

/-- Process-wide driver state plus the per-command pixmap state:
the scanout registry, the in-flight-flip counter, the pending-resize flag,
the reference counts of the command's two pixmaps, the BO identities held by
their driver privates, and the cached `previous_canflip` of the two DRI2
buffer wrappers. -/
structure DriverState where
  scanouts : List ScanoutSlot
  pending_flips : Int
  has_resized : Bool
  srcPixRef : Int
  dstPixRef : Int
  srcBo : Nat
  dstBo : Nat
  srcPrevCanflip : Int
  dstPrevCanflip : Int
deriving DecidableEq

/-- One observable boundary-crossing action of the DRI2 scheduler. -/
inductive Dri2Event where
  /-- Event: `OMAPPixmapExchange(cmd->pSrcPixmap, cmd->pDstPixmap)`. -/
  | pixmapExchange
  /-- Event: `DRI2SwapComplete(...)` completion notification with the given kind. -/
  | notifyComplete (type : Nat)
  /-- Event: `drmmode_scanout_set(pOMAP->scanouts, x, y, bo)`. -/
  | scanoutSet (x y : Int) (bo : Nat)
  /-- Event: `pScreen->DestroyPixmap(cmd->pSrcPixmap)`. -/
  | destroySrcPixmap
  /-- Event: `pScreen->DestroyPixmap(cmd->pDstPixmap)`. -/
  | destroyDstPixmap
  /-- Event: `free(cmd)`. -/
  | freeCmd
  /-- Event: `omap_bo_reference` on the BO with this identity. -/
  | boReference (bo : Nat)
  /-- Event: `omap_bo_unreference` on the BO with this identity. -/
  | boUnreference (bo : Nat)
  /-- Event: `drmmode_set_flip_mode(pScrn)`. -/
  | setFlipMode
  /-- Event: `drmmode_set_blit_mode(pScrn)`. -/
  | setBlitMode
  /-- Event: `drmmode_page_flip(pDraw, src_fb_id, cmd)`. -/
  | pageFlip (fb : Nat)
  /-- Event: `OMAPDRI2CopyRegion` whole-drawable blit. -/
  | blitCopy
  /-- serial-number bump forcing DRI2 buffer re-allocation. -/
  | bumpSerial
deriving DecidableEq

/-- Modelled from the spec: `drmmode_scanout_from_drawable` (in
drmmode_display.c, not under src/) returns the scanout-registry slot whose
output is currently bound to the given drawable, if any. -/
def drmmode_scanout_from_drawable (slots : List ScanoutSlot) (draw_id : Nat) :
    Option ScanoutSlot :=
  slots.find? (fun s => s.boundDraw = some draw_id)

/-- Modelled from the spec: `drmmode_scanout_set` (in drmmode_display.c, not
under src/) updates the registry's current-position metadata (x, y) for the
slot(s) holding the given BO. -/
def drmmode_scanout_set (slots : List ScanoutSlot) (x y : Int) (bo : Nat) :
    List ScanoutSlot :=
  slots.map (fun s => if s.bo = bo then { s with x := x, y := y } else s)

/-- Modelled from the spec: `OMAPPixmapExchange` (in omap_exa.c, not under
src/) swaps the two pixmaps' storage identities (their backing BOs). -/
def OMAPPixmapExchange (st : DriverState) : DriverState :=
  { st with srcBo := st.dstBo, dstBo := st.srcBo }

/-- The `back_bo && (width/height mismatch)` test of `canflip`
(src/omap_dri2.c:97-99). -/
def boSizeMismatch (pDraw : Drawable) : Option OmapBo → Bool
  | none => false
  | some bo => bo.width != pDraw.width || bo.height != pDraw.height

/-- Embeds `canflip` (src/omap_dri2.c:87-105). -/
def canflip (slots : List ScanoutSlot) (pDraw : Drawable)
    (back_bo : Option OmapBo) : Bool :=
  if pDraw.isWindow = false then false
  else if boSizeMismatch pDraw back_bo = true then false
  else if (drmmode_scanout_from_drawable slots pDraw.id).isSome then true
  else false

/-- The scanout-validation loop of `OMAPDRI2SwapComplete`
(src/omap_dri2.c:359-364): mark valid the first slot whose BO equals the
destination BO, then break. -/
def validateMatchingScanout : List ScanoutSlot → Nat → List ScanoutSlot
  | [], _ => []
  | s :: rest, bo =>
    if s.bo = bo then { s with valid := true } :: rest
    else s :: validateMatchingScanout rest bo

/-- The completion section of `OMAPDRI2SwapComplete` (src/omap_dri2.c:335-370)
that runs once the countdown has reached zero, before the unconditional
cleanup: skipped entirely when the command is marked failed; otherwise the
drawable is looked up (`lookupOk` is the `dixLookupDrawable` outcome) and, if
found, the pixmaps are exchanged (flip type, not a fake flip), the client is
notified, and the registry is invalidated (blit) or validated (flip, plus
position update when not a fake flip). -/
def swapFinalize (lookupOk : Bool) (cmd : SwapCmd) (st0 : DriverState) :
    DriverState × List Dri2Event :=
  if cmd.flags &&& OMAP_SWAP_FAIL = 0 then
    if lookupOk then
      let se1 :=
        if cmd.type ≠ DRI2_BLIT_COMPLETE ∧ cmd.flags &&& OMAP_SWAP_FAKE_FLIP = 0 then
          (OMAPPixmapExchange st0, [Dri2Event.pixmapExchange])
        else (st0, ([] : List Dri2Event))
      let st1 := se1.1
      let evs1 := se1.2 ++ [Dri2Event.notifyComplete cmd.type]
      if cmd.type = DRI2_BLIT_COMPLETE then
        ({ st1 with scanouts := st1.scanouts.map (fun s => { s with valid := false }) },
         evs1)
      else
        let st2 := { st1 with scanouts := validateMatchingScanout st1.scanouts st1.dstBo }
        if cmd.flags &&& OMAP_SWAP_FAKE_FLIP = 0 then
          ({ st2 with scanouts := drmmode_scanout_set st2.scanouts cmd.x cmd.y st1.dstBo },
           evs1 ++ [Dri2Event.scanoutSet cmd.x cmd.y st1.dstBo])
        else (st2, evs1)
    else (st0, [])
  else (st0, [])

/-- Embeds `OMAPDRI2SwapComplete` (src/omap_dri2.c:322-379).  Decrements the
countdown; while it stays positive, returns the surviving command and
touches nothing.  Otherwise runs `swapFinalize` and then unconditionally
drops the two extra pixmap references, decrements `pending_flips` and frees
the command (result command `none`). -/
def OMAPDRI2SwapComplete (lookupOk : Bool) (cmd0 : SwapCmd) (st0 : DriverState) :
    Option SwapCmd × DriverState × List Dri2Event :=
  let cmd : SwapCmd := { cmd0 with swapCount := cmd0.swapCount - 1 }
  if 0 < cmd.swapCount then (some cmd, st0, [])
  else
    let se := swapFinalize lookupOk cmd st0
    (none,
     { se.1 with srcPixRef := se.1.srcPixRef - 1, dstPixRef := se.1.dstPixRef - 1,
                 pending_flips := se.1.pending_flips - 1 },
     se.2 ++ [Dri2Event.destroySrcPixmap, Dri2Event.destroyDstPixmap, Dri2Event.freeCmd])

/-- Results of the external calls `OMAPDRI2ScheduleSwap` makes:
the two mode switches, `drmmode_page_flip`, the `dixLookupDrawable` outcome
seen by a synchronously-invoked completion, the device's fallback scanout BO
(`pOMAP->scanout`) and the framebuffer id registered for each BO
(`omap_bo_get_fb`; 0 meaning none). -/
structure SwapExt where
  setFlipModeOk : Bool
  setBlitModeOk : Bool
  pageFlipRet : Int
  lookupOk : Bool
  scanoutBo : Nat
  fbOfBo : Nat → Nat

/-- C `int` value of a `Bool`, for the cached `previous_canflip` compare. -/
def cint (b : Bool) : Int := if b then 1 else 0

/-- Embeds `OMAPDRI2ScheduleSwap` (src/omap_dri2.c:393-543), with
`OMAP_USE_PAGE_FLIP_EVENTS` in effect (the configuration the spec
describes): the countdown is set from the page-flip return value.
Returns (result, final state, events). -/
def OMAPDRI2ScheduleSwap (ext : SwapExt) (pDraw : Drawable) (srcBoObj : OmapBo)
    (st0 : DriverState) : Bool × DriverState × List Dri2Event :=
  let cmd0 : SwapCmd :=
    { type := 0, draw_id := pDraw.id, swapCount := 0, flags := 0
      x := pDraw.x, y := pDraw.y }
  let new_canflip := canflip st0.scanouts pDraw (some srcBoObj)
  let flipBranch := new_canflip = true ∧ st0.has_resized = false
  let st1 :=
    if flipBranch then
      { st0 with dstBo :=
          ((drmmode_scanout_from_drawable st0.scanouts pDraw.id).map ScanoutSlot.bo).getD 0 }
    else { st0 with dstBo := ext.scanoutBo }
  let evs1 :=
    if flipBranch then
      [Dri2Event.boReference st1.dstBo, Dri2Event.boUnreference st0.dstBo,
       Dri2Event.setFlipMode]
    else
      [Dri2Event.boReference ext.scanoutBo, Dri2Event.boUnreference st0.dstBo,
       Dri2Event.setBlitMode]
  let modeOk := if flipBranch then ext.setFlipModeOk else ext.setBlitModeOk
  if modeOk = false then (false, st1, evs1)
  else
    let st2 : DriverState :=
      { st1 with srcPixRef := st1.srcPixRef + 1, dstPixRef := st1.dstPixRef + 1,
                 pending_flips := st1.pending_flips + 1 }
    let src_fb_id := ext.fbOfBo st2.srcBo
    let dst_fb_id := ext.fbOfBo st2.dstBo
    let bump :=
      (st0.srcPrevCanflip ≠ -1 ∧ st0.srcPrevCanflip ≠ cint new_canflip) ∨
      (st0.dstPrevCanflip ≠ -1 ∧ st0.dstPrevCanflip ≠ cint new_canflip) ∨
      st0.has_resized = true
    let evs2 := evs1 ++ (if bump then [Dri2Event.bumpSerial] else [])
    let st3 : DriverState :=
      { st2 with srcPrevCanflip := cint new_canflip, dstPrevCanflip := cint new_canflip }
    if src_fb_id ≠ 0 ∧ dst_fb_id ≠ 0 ∧ new_canflip = true ∧ st0.has_resized = false then
      let evs3 := evs2 ++ [Dri2Event.pageFlip src_fb_id]
      if ext.pageFlipRet < 0 then
        let cmd2 : SwapCmd :=
          { cmd0 with type := DRI2_FLIP_COMPLETE
                      flags := cmd0.flags ||| OMAP_SWAP_FAIL
                      swapCount := -(ext.pageFlipRet + 1) }
        if cmd2.swapCount = 0 then
          let fin := OMAPDRI2SwapComplete ext.lookupOk cmd2 st3
          (false, fin.2.1, evs3 ++ fin.2.2)
        else (false, st3, evs3)
      else
        let fakeFlags := if ext.pageFlipRet = 0 then OMAP_SWAP_FAKE_FLIP else 0
        let cmd2 : SwapCmd :=
          { cmd0 with type := DRI2_FLIP_COMPLETE
                      flags := cmd0.flags ||| fakeFlags
                      swapCount := ext.pageFlipRet }
        if cmd2.swapCount = 0 then
          let fin := OMAPDRI2SwapComplete ext.lookupOk cmd2 st3
          (true, fin.2.1, evs3 ++ fin.2.2)
        else (true, st3, evs3)
    else
      let evs3 := evs2 ++ [Dri2Event.blitCopy]
      let cmd2 : SwapCmd := { cmd0 with type := DRI2_BLIT_COMPLETE }
      let fin := OMAPDRI2SwapComplete ext.lookupOk cmd2 st3
      (true, { fin.2.1 with has_resized := false }, evs3 ++ fin.2.2)

/-! ### Lemmas and claim theorems for the DRI2 scheduler -/

/-- The size-mismatch test passes exactly when no candidate BO is given or
its dimensions equal the drawable's. -/
theorem boSizeMismatch_eq_false (d : Drawable) (b : Option OmapBo) :
    boSizeMismatch d b = false ↔
      (b = none ∨ ∃ bo, b = some bo ∧ bo.width = d.width ∧ bo.height = d.height) := by
  cases b with
  | none => simp [boSizeMismatch]
  | some bo => simp [boSizeMismatch]

/-- C2: `canflip` returns true iff the drawable is a window, the candidate
BO (if any) matches the drawable's current width and height, and the scanout
registry has an output bound to this drawable; in particular it is false
whenever the drawable is not a window or the BO's dimensions differ,
regardless of the scanout binding. -/
theorem canflip_iff (slots : List ScanoutSlot) (d : Drawable) (b : Option OmapBo) :
    (canflip slots d b = true ↔
      d.isWindow = true ∧
      (b = none ∨ ∃ bo, b = some bo ∧ bo.width = d.width ∧ bo.height = d.height) ∧
      (drmmode_scanout_from_drawable slots d.id).isSome = true) ∧
    ((d.isWindow = false ∨
        (∃ bo, b = some bo ∧ (bo.width ≠ d.width ∨ bo.height ≠ d.height))) →
      canflip slots d b = false) := by
  have hmm := boSizeMismatch_eq_false d b
  constructor
  · unfold canflip
    split_ifs with h1 h2 h3
    · simp only [Bool.false_eq_true, false_iff]
      intro hc
      rw [hc.1] at h1
      simp at h1
    · simp only [Bool.false_eq_true, false_iff]
      intro hc
      rw [hmm.mpr hc.2.1] at h2
      simp at h2
    · have hw : d.isWindow = true := by
        cases hiw : d.isWindow
        · exact absurd hiw h1
        · rfl
      simp only [true_iff, hw, true_and]
      refine ⟨?_, h3⟩
      rw [← hmm]
      cases hb : boSizeMismatch d b
      · rfl
      · exact absurd hb h2
    · simp only [Bool.false_eq_true, false_iff]
      intro hc
      exact h3 hc.2.2
  · intro hc
    unfold canflip
    rcases hc with hw | ⟨bo, rfl, hdim⟩
    · rw [if_pos hw]
    · have : boSizeMismatch d (some bo) = true := by
        simp only [boSizeMismatch, Bool.or_eq_true, bne_iff_ne]
        tauto
      split_ifs <;> simp_all

/-- An off-screen (non-window) drawable, used as a concrete input. -/
def pixDraw : Drawable :=
  { id := 3, isWindow := false, width := 8, height := 8, x := 0, y := 0 }

/-- Witness for C2: a non-window drawable is never flippable. -/
theorem canflip_iff_witness : canflip [] pixDraw none = false :=
  (canflip_iff [] pixDraw none).2 (Or.inl rfl)

/-- The pre-cleanup completion section never touches the pixmap reference
counts or the in-flight-flip counter, and performs none of the cleanup
actions itself. -/
theorem swapFinalize_counters (lookupOk : Bool) (cmd : SwapCmd) (st : DriverState) :
    (swapFinalize lookupOk cmd st).1.srcPixRef = st.srcPixRef ∧
    (swapFinalize lookupOk cmd st).1.dstPixRef = st.dstPixRef ∧
    (swapFinalize lookupOk cmd st).1.pending_flips = st.pending_flips ∧
    (swapFinalize lookupOk cmd st).2.count Dri2Event.destroySrcPixmap = 0 ∧
    (swapFinalize lookupOk cmd st).2.count Dri2Event.destroyDstPixmap = 0 ∧
    (swapFinalize lookupOk cmd st).2.count Dri2Event.freeCmd = 0 := by
  unfold swapFinalize
  split_ifs <;>
    simp [OMAPPixmapExchange, List.count_append, List.count_cons, List.count_nil]

/-- C1: each invocation of `OMAPDRI2SwapComplete` on a command whose
countdown is at least 1 decrements the countdown and, while it stays
positive, returns the surviving command with no other effect; the invocation
that brings it to zero releases the two extra pixmap ownership references,
decrements the in-flight-flip counter and frees the command exactly once —
regardless of the failure flag and of whether the drawable still resolves
(both quantified freely here). -/
theorem swapComplete_countdown (lookupOk : Bool) (cmd : SwapCmd) (st : DriverState)
    (hpos : 1 ≤ cmd.swapCount) :
    (1 < cmd.swapCount →
      OMAPDRI2SwapComplete lookupOk cmd st =
        (some { cmd with swapCount := cmd.swapCount - 1 }, st, [])) ∧
    (cmd.swapCount = 1 →
      (OMAPDRI2SwapComplete lookupOk cmd st).1 = none ∧
      (OMAPDRI2SwapComplete lookupOk cmd st).2.1.srcPixRef = st.srcPixRef - 1 ∧
      (OMAPDRI2SwapComplete lookupOk cmd st).2.1.dstPixRef = st.dstPixRef - 1 ∧
      (OMAPDRI2SwapComplete lookupOk cmd st).2.1.pending_flips = st.pending_flips - 1 ∧
      (OMAPDRI2SwapComplete lookupOk cmd st).2.2.count Dri2Event.destroySrcPixmap = 1 ∧
      (OMAPDRI2SwapComplete lookupOk cmd st).2.2.count Dri2Event.destroyDstPixmap = 1 ∧
      (OMAPDRI2SwapComplete lookupOk cmd st).2.2.count Dri2Event.freeCmd = 1) := by
  constructor
  · intro h
    simp only [OMAPDRI2SwapComplete]
    split
    · rfl
    · rename_i hc
      exact absurd (show (0 : Int) < cmd.swapCount - 1 by omega) hc
  · intro h
    simp only [OMAPDRI2SwapComplete]
    split
    · rename_i hc
      exact absurd hc (by omega)
    · obtain ⟨h1, h2, h3, c1, c2, c3⟩ :=
        swapFinalize_counters lookupOk { cmd with swapCount := cmd.swapCount - 1 } st
      exact ⟨rfl, by simp [h1], by simp [h2], by simp [h3],
        by simp [List.count_append, List.count_cons, c1],
        by simp [List.count_append, List.count_cons, c2],
        by simp [List.count_append, List.count_cons, c3]⟩

/-- A one-slot registry state used as a concrete input. -/
def st00 : DriverState :=
  { scanouts := [{ bo := 5, valid := false, x := 0, y := 0, boundDraw := some 7 }]
    pending_flips := 1, has_resized := false, srcPixRef := 2, dstPixRef := 2
    srcBo := 10, dstBo := 5, srcPrevCanflip := -1, dstPrevCanflip := -1 }

/-- A single-output flip command about to finalize. -/
def cmdFlip1 : SwapCmd :=
  { type := DRI2_FLIP_COMPLETE, draw_id := 7, swapCount := 1, flags := 0
    x := 0, y := 0 }

/-- Witness for C1: the finalizing call on a concrete command (with the
drawable gone) frees the command. -/
theorem swapComplete_countdown_witness :
    (OMAPDRI2SwapComplete false cmdFlip1 st00).1 = none :=
  ((swapComplete_countdown false cmdFlip1 st00 (by decide)).2 rfl).1

/-- Discriminator for `Dri2Event.scanoutSet`. -/
def isScanoutSet : Dri2Event → Bool
  | Dri2Event.scanoutSet _ _ _ => true
  | _ => false

/-- Discriminator for `Dri2Event.pageFlip`. -/
def isPageFlip : Dri2Event → Bool
  | Dri2Event.pageFlip _ => true
  | _ => false

/-- The validation loop marks at most one slot: the number of valid slots
grows by at most one. -/
theorem countValid_validateMatchingScanout (l : List ScanoutSlot) (b : Nat) :
    (validateMatchingScanout l b).countP (fun s => s.valid) ≤
      l.countP (fun s => s.valid) + 1 := by
  induction l with
  | nil => simp [validateMatchingScanout]
  | cons s rest ih =>
    unfold validateMatchingScanout
    split_ifs with h
    · simp only [List.countP_cons]
      split_ifs <;> omega
    · simp only [List.countP_cons]
      split_ifs <;> omega

/-- Updating slot positions does not change any validity flag. -/
theorem countValid_scanout_set (l : List ScanoutSlot) (x y : Int) (b : Nat) :
    (drmmode_scanout_set l x y b).countP (fun s => s.valid) =
      l.countP (fun s => s.valid) := by
  unfold drmmode_scanout_set
  induction l with
  | nil => rfl
  | cons s rest ih =>
    simp only [List.map_cons, List.countP_cons, ih]
    split_ifs <;> rfl

/-- A fake-flip command (no output needed reprogramming) about to
finalize. -/
def cmdFakeFlip : SwapCmd :=
  { type := DRI2_FLIP_COMPLETE, draw_id := 7, swapCount := 0
    flags := OMAP_SWAP_FAKE_FLIP, x := 2, y := 3 }

/-- C3 counterexample: on a fake-flip completion that is not failed and
whose drawable resolves, the code does *not* swap the two surfaces' storage
identities (no exchange event, source/destination BOs unchanged) — yet it
still validates the matching scanout slot — refuting the claim that
finalization of every such flip completion swaps the storage identities
(with only the position update conditional on the fake-flip flag). -/
theorem flip_finalize_counterexample :
    (OMAPDRI2SwapComplete true cmdFakeFlip st00).2.1.srcBo = st00.srcBo ∧
    (OMAPDRI2SwapComplete true cmdFakeFlip st00).2.1.dstBo = st00.dstBo ∧
    Dri2Event.pixmapExchange ∉ (OMAPDRI2SwapComplete true cmdFakeFlip st00).2.2 ∧
    (OMAPDRI2SwapComplete true cmdFakeFlip st00).2.1.scanouts =
      [{ bo := 5, valid := true, x := 0, y := 0, boundDraw := some 7 }] ∧
    (∀ e ∈ (OMAPDRI2SwapComplete true cmdFakeFlip st00).2.2,
      isScanoutSet e = false) := by
  decide

/-- C3 amended: for a finalizing flip completion that is not failed and
whose drawable resolves, the storage identities are exchanged and the
registry position metadata updated *exactly when the command is not a fake
flip*; in both cases the first scanout slot whose BO matches the new
destination BO is marked valid, and at most one slot is ever validated. -/
theorem flip_finalize_amended (cmd : SwapCmd) (st : DriverState)
    (htype : cmd.type = DRI2_FLIP_COMPLETE)
    (hfail : cmd.flags &&& OMAP_SWAP_FAIL = 0)
    (hcnt : cmd.swapCount ≤ 1) :
    ((cmd.flags &&& OMAP_SWAP_FAKE_FLIP = 0 →
      (OMAPDRI2SwapComplete true cmd st).2.1.srcBo = st.dstBo ∧
      (OMAPDRI2SwapComplete true cmd st).2.1.dstBo = st.srcBo ∧
      Dri2Event.pixmapExchange ∈ (OMAPDRI2SwapComplete true cmd st).2.2 ∧
      (OMAPDRI2SwapComplete true cmd st).2.1.scanouts =
        drmmode_scanout_set (validateMatchingScanout st.scanouts st.srcBo)
          cmd.x cmd.y st.srcBo ∧
      Dri2Event.scanoutSet cmd.x cmd.y st.srcBo ∈
        (OMAPDRI2SwapComplete true cmd st).2.2) ∧
     (cmd.flags &&& OMAP_SWAP_FAKE_FLIP ≠ 0 →
      (OMAPDRI2SwapComplete true cmd st).2.1.srcBo = st.srcBo ∧
      (OMAPDRI2SwapComplete true cmd st).2.1.dstBo = st.dstBo ∧
      Dri2Event.pixmapExchange ∉ (OMAPDRI2SwapComplete true cmd st).2.2 ∧
      (OMAPDRI2SwapComplete true cmd st).2.1.scanouts =
        validateMatchingScanout st.scanouts st.dstBo ∧
      (∀ e ∈ (OMAPDRI2SwapComplete true cmd st).2.2, isScanoutSet e = false))) ∧
    (OMAPDRI2SwapComplete true cmd st).2.1.scanouts.countP (fun s => s.valid) ≤
      st.scanouts.countP (fun s => s.valid) + 1 := by
  have hnotblit : ¬cmd.type = DRI2_BLIT_COMPLETE := by
    rw [htype]; decide
  constructor
  · constructor
    · intro hfake
      simp only [OMAPDRI2SwapComplete]
      rw [if_neg (by omega)]
      simp only [swapFinalize, hfail, hfake, OMAPPixmapExchange, if_pos rfl]
      simp [htype, hnotblit, DRI2_FLIP_COMPLETE, DRI2_BLIT_COMPLETE]
    · intro hfake
      simp only [OMAPDRI2SwapComplete]
      rw [if_neg (by omega)]
      simp only [swapFinalize, hfail, if_pos rfl]
      simp [htype, hnotblit, hfake, DRI2_FLIP_COMPLETE, DRI2_BLIT_COMPLETE, isScanoutSet]
  · simp only [OMAPDRI2SwapComplete]
    rw [if_neg (by omega)]
    simp only [swapFinalize, hfail, if_pos rfl]
    by_cases hfake : cmd.flags &&& OMAP_SWAP_FAKE_FLIP = 0
    · simp only [hfake, htype, hnotblit, OMAPPixmapExchange]
      simp [DRI2_FLIP_COMPLETE, DRI2_BLIT_COMPLETE,
        countValid_scanout_set, countValid_validateMatchingScanout]
    · simp only [hfake, htype, hnotblit, OMAPPixmapExchange]
      simp [DRI2_FLIP_COMPLETE, DRI2_BLIT_COMPLETE, hfake,
        countValid_validateMatchingScanout]

/-- Witness for C3's amended theorem: a concrete non-fake flip completion
exchanges the storage identities. -/
theorem flip_finalize_amended_witness :
    (OMAPDRI2SwapComplete true cmdFlip1 st00).2.1.srcBo = st00.dstBo ∧
    (OMAPDRI2SwapComplete true cmdFlip1 st00).2.1.dstBo = st00.srcBo ∧
    Dri2Event.pixmapExchange ∈ (OMAPDRI2SwapComplete true cmdFlip1 st00).2.2 ∧
    (OMAPDRI2SwapComplete true cmdFlip1 st00).2.1.scanouts =
      drmmode_scanout_set (validateMatchingScanout st00.scanouts st00.srcBo)
        cmdFlip1.x cmdFlip1.y st00.srcBo ∧
    Dri2Event.scanoutSet cmdFlip1.x cmdFlip1.y st00.srcBo ∈
      (OMAPDRI2SwapComplete true cmdFlip1 st00).2.2 :=
  (flip_finalize_amended cmdFlip1 st00 rfl (by decide) (by decide)).1.1 (by decide)

/-- A state whose single scanout slot is currently valid. -/
def stValid : DriverState :=
  { st00 with scanouts := [{ bo := 5, valid := true, x := 0, y := 0, boundDraw := some 7 }] }

/-- A blit-classified command about to finalize. -/
def cmdBlit : SwapCmd :=
  { type := DRI2_BLIT_COMPLETE, draw_id := 7, swapCount := 0, flags := 0
    x := 0, y := 0 }

/-- C4 counterexample: when the drawable no longer resolves, finalization of
a blit completion leaves the scanout registry untouched — a previously valid
slot stays valid — refuting the claim that blit finalization always
invalidates every slot. -/
theorem blit_finalize_counterexample :
    (OMAPDRI2SwapComplete false cmdBlit stValid).1 = none ∧
    (OMAPDRI2SwapComplete false cmdBlit stValid).2.1.scanouts =
      [{ bo := 5, valid := true, x := 0, y := 0, boundDraw := some 7 }] := by
  decide

/-- C4 amended: finalization of a blit completion invalidates every scanout
slot provided the command is not marked failed and its drawable still
resolves; when the command is failed or the drawable is gone, the registry
is left unchanged. -/
theorem blit_finalize_amended (lookupOk : Bool) (cmd : SwapCmd) (st : DriverState)
    (htype : cmd.type = DRI2_BLIT_COMPLETE) (hcnt : cmd.swapCount ≤ 1) :
    (cmd.flags &&& OMAP_SWAP_FAIL = 0 → lookupOk = true →
      ∀ s ∈ (OMAPDRI2SwapComplete lookupOk cmd st).2.1.scanouts, s.valid = false) ∧
    ((cmd.flags &&& OMAP_SWAP_FAIL ≠ 0 ∨ lookupOk = false) →
      (OMAPDRI2SwapComplete lookupOk cmd st).2.1.scanouts = st.scanouts) := by
  constructor
  · intro hfail hlook
    subst hlook
    simp only [OMAPDRI2SwapComplete]
    rw [if_neg (by omega)]
    simp only [swapFinalize, hfail, htype, if_pos rfl]
    simp
  · intro hbad
    simp only [OMAPDRI2SwapComplete]
    rw [if_neg (by omega)]
    rcases hbad with hfail | hlook
    · simp only [swapFinalize, if_neg hfail]
    · subst hlook
      simp only [swapFinalize]
      split_ifs <;> simp_all

/-- Witness for C4's amended theorem: a concrete blit completion whose
drawable lookup fails leaves the registry unchanged. -/
theorem blit_finalize_amended_witness :
    (OMAPDRI2SwapComplete false cmdBlit stValid).2.1.scanouts = stValid.scanouts :=
  (blit_finalize_amended false cmdBlit stValid rfl (by decide)).2 (Or.inr rfl)

/-- C5: if the mode switch of the chosen branch (set-flip-mode when
flip-eligible, set-blit-mode otherwise) fails, `OMAPDRI2ScheduleSwap`
returns failure immediately: no pixmap reference is taken, the
in-flight-flip counter is not incremented, no flip or blit is issued and no
command completion runs; only the destination BO rebinding performed before
the mode switch has happened. -/
theorem scheduleSwap_mode_fail (ext : SwapExt) (d : Drawable) (srcBoObj : OmapBo)
    (st : DriverState)
    (hmode : (if canflip st.scanouts d (some srcBoObj) = true ∧ st.has_resized = false
              then ext.setFlipModeOk else ext.setBlitModeOk) = false) :
    (OMAPDRI2ScheduleSwap ext d srcBoObj st).1 = false ∧
    (OMAPDRI2ScheduleSwap ext d srcBoObj st).2.1.srcPixRef = st.srcPixRef ∧
    (OMAPDRI2ScheduleSwap ext d srcBoObj st).2.1.dstPixRef = st.dstPixRef ∧
    (OMAPDRI2ScheduleSwap ext d srcBoObj st).2.1.pending_flips = st.pending_flips ∧
    (OMAPDRI2ScheduleSwap ext d srcBoObj st).2.1.scanouts = st.scanouts ∧
    (OMAPDRI2ScheduleSwap ext d srcBoObj st).2.1.has_resized = st.has_resized ∧
    (OMAPDRI2ScheduleSwap ext d srcBoObj st).2.1.srcPrevCanflip = st.srcPrevCanflip ∧
    (OMAPDRI2ScheduleSwap ext d srcBoObj st).2.1.dstPrevCanflip = st.dstPrevCanflip ∧
    (OMAPDRI2ScheduleSwap ext d srcBoObj st).2.1.srcBo = st.srcBo ∧
    (∀ e ∈ (OMAPDRI2ScheduleSwap ext d srcBoObj st).2.2, isPageFlip e = false) ∧
    Dri2Event.blitCopy ∉ (OMAPDRI2ScheduleSwap ext d srcBoObj st).2.2 ∧
    Dri2Event.destroySrcPixmap ∉ (OMAPDRI2ScheduleSwap ext d srcBoObj st).2.2 ∧
    Dri2Event.destroyDstPixmap ∉ (OMAPDRI2ScheduleSwap ext d srcBoObj st).2.2 := by
  simp only [OMAPDRI2ScheduleSwap]
  rw [if_pos hmode]
  split_ifs <;> simp [isPageFlip]

/-- External-call results where the flip-mode switch fails. -/
def extModeFail : SwapExt :=
  { setFlipModeOk := false, setBlitModeOk := true, pageFlipRet := 1
    lookupOk := true, scanoutBo := 9, fbOfBo := fun _ => 1 }

/-- A flip-capable top-level window drawable. -/
def winDraw : Drawable :=
  { id := 7, isWindow := true, width := 8, height := 8, x := 0, y := 0 }

/-- A source BO matching `winDraw`'s geometry. -/
def srcObj : OmapBo := { defaultBo with width := 8, height := 8, refcnt := 1 }

/-- Witness for C5: with a failing flip-mode switch on a flip-eligible
concrete swap, scheduling fails and takes no pixmap reference. -/
theorem scheduleSwap_mode_fail_witness :
    (OMAPDRI2ScheduleSwap extModeFail winDraw srcObj st00).1 = false ∧
    (OMAPDRI2ScheduleSwap extModeFail winDraw srcObj st00).2.1.srcPixRef =
      st00.srcPixRef :=
  ⟨(scheduleSwap_mode_fail extModeFail winDraw srcObj st00 (by decide)).1,
   (scheduleSwap_mode_fail extModeFail winDraw srcObj st00 (by decide)).2.1⟩

end Armsoc
